import Mathlib

/-!
Verification of the rome-tools fragment: the `to_format_element` rule for
`TsEmptyExternalModuleDeclarationBody`
(crates/rome_formatter/src/ts/auxiliary/empty_external_module_declaration_body.rs)
and the `rome.json` configuration module
(crates/rome_service/src/configuration/mod.rs).
-/

/-- Trivia attached to a token: whitespace runs, line breaks, and comments. -/
inductive TriviaPiece where
  | Whitespace (s : String)
  | Newline (count : Nat)
  | Comment (text : String)

/-- Token: a span of source text with a kind tag plus leading/trailing trivia
(spec data model for the external parser interface). -/
structure SyntaxToken where
  kind : Nat
  text : String
  leading_trivia : List TriviaPiece
  trailing_trivia : List TriviaPiece

/-- Document IR element (`FormatElement` in the formatter crate): literal
text, line breaks, grouping, indentation, and sequences. -/
inductive FormatElement where
  | Empty : FormatElement
  | Text (s : String) : FormatElement
  | List (content : List FormatElement) : FormatElement
  | Line : FormatElement
  | Group (content : FormatElement) : FormatElement
  | Indent (content : FormatElement) : FormatElement

/-- Structured formatting failure taxonomy: a node kind without a rule, or a
required child token missing from the tree. -/
inductive FormatError where
  | UnsupportedNodeKind
  | MissingRequiredChild
deriving DecidableEq

/-- Result of converting one node to Document IR: a fragment or a structured
failure (`FormatResult` in the formatter crate). -/
abbrev FormatResult (α : Type) := Except FormatError α

/-- Formatting context (`Formatter` in the crate): immutable per-run value
record with the maximum line width, the indent unit, and stylistic switches. -/
structure Formatter where
  max_width : Nat
  indent_size : Nat
  quote_double : Bool

/-- Comment content carried by one trivia piece, as Document IR. -/
def TriviaPiece.commentContent : TriviaPiece → List FormatElement
  | TriviaPiece.Comment text => [FormatElement.Text text]
  | _ => []

/-- Comment content carried by a trivia run, in order. -/
def triviaComments (pieces : List TriviaPiece) : List FormatElement :=
  pieces.foldr (fun p acc => p.commentContent ++ acc) []

/-- Modelled from the spec: `FormatTokenAndNode::format` on a `SyntaxToken`
(its implementation lives outside the two files under verification). It
applies trivia attachment and yields `Text` plus any attached comment
content. -/
def SyntaxToken.format (self : SyntaxToken) (_formatter : Formatter) :
    FormatElement :=
  FormatElement.List
    (triviaComments self.leading_trivia
      ++ [FormatElement.Text self.text]
      ++ triviaComments self.trailing_trivia)

/-- Modelled from the spec: `FormatTokenAndNode::format` on a
`SyntaxResult<SyntaxToken>` for a required child token (implementation
outside the files under verification): a present token is formatted as a
token; a missing one is the structured failure \x22required child token
missing\x22. -/
def formatRequiredToken (tok : Option SyntaxToken) (formatter : Formatter) :
    FormatResult FormatElement :=
  match tok with
  | none => Except.error FormatError.MissingRequiredChild
  | some t => Except.ok (t.format formatter)

/-- Syntax node `TsEmptyExternalModuleDeclarationBody`: its grammar requires
one semicolon token; the node also carries its verbatim source span (the
spec requires every node to carry its original span for the fallback
path). -/
structure TsEmptyExternalModuleDeclarationBody where
  semicolon_token : Option SyntaxToken
  source_span : String

/-- Fields record returned by `as_fields` on the node. -/
structure TsEmptyExternalModuleDeclarationBodyFields where
  semicolon_token : Option SyntaxToken

/-- Projection `as_fields` from the node to its fields record. -/
def TsEmptyExternalModuleDeclarationBody.as_fields
    (self : TsEmptyExternalModuleDeclarationBody) :
    TsEmptyExternalModuleDeclarationBodyFields :=
  { semicolon_token := self.semicolon_token }

/-- The `ToFormatElement` implementation for
`TsEmptyExternalModuleDeclarationBody`: destructure the fields record and
format the semicolon token. -/
def TsEmptyExternalModuleDeclarationBody.to_format_element
    (self : TsEmptyExternalModuleDeclarationBody) (formatter : Formatter) :
    FormatResult FormatElement :=
  match self.as_fields with
  | { semicolon_token := semicolon_token } =>
      formatRequiredToken semicolon_token formatter

/-- State-passing form of `to_format_element` that makes the effect on the
node and the context explicit: the source function receives `&self` and
`&Formatter` (shared immutable borrows, no interior mutability), performs
only reads, and the final node and context are returned alongside the
result. -/
def TsEmptyExternalModuleDeclarationBody.to_format_element_run
    (self : TsEmptyExternalModuleDeclarationBody) (formatter : Formatter) :
    FormatResult FormatElement × TsEmptyExternalModuleDeclarationBody × Formatter :=
  match self.as_fields with
  | { semicolon_token := semicolon_token } =>
      (formatRequiredToken semicolon_token formatter, self, formatter)

/-- Verbatim fallback for a node: its original source span emitted as a
`Text` fragment (the unsupported-construct policy). -/
def verbatimFallback (node : TsEmptyExternalModuleDeclarationBody) :
    FormatElement :=
  FormatElement.Text node.source_span

/-- Modelled from the spec: the formatting entry point wrapping a node rule
(it lives outside the files under verification): a structured failure from
the rule — unsupported construct or malformed tree shape — degrades to the
node\x27s verbatim source text instead of aborting the run. -/
def format_node (node : TsEmptyExternalModuleDeclarationBody)
    (formatter : Formatter) : FormatElement :=
  match node.to_format_element formatter with
  | Except.ok element => element
  | Except.error _ => verbatimFallback node

/-- Claim C1: for every `TsEmptyExternalModuleDeclarationBody` node whose
required semicolon token is present and every formatter context,
`to_format_element` pulls exactly that token and its result is exactly the
result of formatting that semicolon token, with no other Document IR
content produced. -/
theorem to_format_element_formats_semicolon
    (node : TsEmptyExternalModuleDeclarationBody) (formatter : Formatter)
    (t : SyntaxToken) (h : node.semicolon_token = some t) :
    node.to_format_element formatter = Except.ok (t.format formatter) := by
  simp [TsEmptyExternalModuleDeclarationBody.to_format_element,
    TsEmptyExternalModuleDeclarationBody.as_fields, formatRequiredToken, h]

/-- Concrete semicolon token used for witnesses. -/
def semiTok : SyntaxToken :=
  { kind := 0, text := ";", leading_trivia := [], trailing_trivia := [] }

/-- Concrete well-formed node used for witnesses. -/
def semiNode : TsEmptyExternalModuleDeclarationBody :=
  { semicolon_token := some semiTok, source_span := ";" }

/-- Concrete node missing its required semicolon token. -/
def brokenNode : TsEmptyExternalModuleDeclarationBody :=
  { semicolon_token := none, source_span := "declare" }

/-- Concrete formatter context used for witnesses. -/
def sampleContext : Formatter :=
  { max_width := 80, indent_size := 2, quote_double := true }

/-- Witness for C1 at a concrete node holding a plain semicolon token. -/
theorem to_format_element_formats_semicolon_witness :
    semiNode.to_format_element sampleContext
      = Except.ok (semiTok.format sampleContext) :=
  to_format_element_formats_semicolon semiNode sampleContext semiTok rfl

/-- Claim C2: the conversion of a `TsEmptyExternalModuleDeclarationBody` to
Document IR takes the node and the formatting context and returns either a
Document IR fragment or a structured failure value, never any other
outcome. -/
theorem to_format_element_total_result
    (node : TsEmptyExternalModuleDeclarationBody) (formatter : Formatter) :
    (∃ element, node.to_format_element formatter = Except.ok element)
      ∨ (∃ err, node.to_format_element formatter = Except.error err) := by
  cases h : node.to_format_element formatter with
  | ok element => exact Or.inl ⟨element, rfl⟩
  | error err => exact Or.inr ⟨err, rfl⟩

/-- Claim C3: for a `TsEmptyExternalModuleDeclarationBody` node whose
required semicolon token is missing, formatting the node does not abort the
run: the entry point degrades to emitting the node\x27s verbatim source text
as a `Text` fragment, identically to the unsupported-construct policy. -/
theorem format_node_missing_semicolon_verbatim
    (node : TsEmptyExternalModuleDeclarationBody) (formatter : Formatter)
    (h : node.semicolon_token = none) :
    format_node node formatter = verbatimFallback node
      ∧ format_node node formatter = FormatElement.Text node.source_span := by
  constructor <;>
    simp [format_node, TsEmptyExternalModuleDeclarationBody.to_format_element,
      TsEmptyExternalModuleDeclarationBody.as_fields, formatRequiredToken, h,
      verbatimFallback]

/-- Witness for C3 at a concrete node missing its semicolon token. -/
theorem format_node_missing_semicolon_verbatim_witness :
    format_node brokenNode sampleContext = verbatimFallback brokenNode :=
  (format_node_missing_semicolon_verbatim brokenNode sampleContext rfl).1

/-- Claim C4: formatting is deterministic: two runs of `to_format_element`
on identical nodes with identical formatter contexts return identical
`FormatResult` values (the function is pure). -/
theorem to_format_element_deterministic
    (node₁ node₂ : TsEmptyExternalModuleDeclarationBody)
    (formatter₁ formatter₂ : Formatter)
    (hn : node₁ = node₂) (hf : formatter₁ = formatter₂) :
    node₁.to_format_element formatter₁ = node₂.to_format_element formatter₂ := by
  rw [hn, hf]

/-- Witness for C4 at a concrete node and context. -/
theorem to_format_element_deterministic_witness :
    semiNode.to_format_element sampleContext
      = semiNode.to_format_element sampleContext :=
  to_format_element_deterministic semiNode semiNode
    sampleContext sampleContext rfl rfl

/-- Claim C5: running `to_format_element` leaves both the syntax node and
the formatting context unchanged, and its result agrees with the pure
conversion. -/
theorem to_format_element_frame
    (node : TsEmptyExternalModuleDeclarationBody) (formatter : Formatter) :
    (node.to_format_element_run formatter).2.1 = node
      ∧ (node.to_format_element_run formatter).2.2 = formatter
      ∧ (node.to_format_element_run formatter).1
          = node.to_format_element formatter := by
  refine ⟨rfl, rfl, ?_⟩
  rfl

/-- Modelled from the spec: the formatter tool configuration
(`FormatterConfiguration` from `configuration/formatter.rs`, a file the
configuration module references but which is outside the files under
verification): the resolved settings expose an enabled flag, the maximum
line width and the indentation size. -/
structure FormatterConfiguration where
  enabled : Bool
  line_width : Nat
  indent_size : Nat
deriving DecidableEq

/-- Modelled from the spec: the serde default of the formatter configuration
(the formatter tool is on by default with the usual width and indent). -/
def FormatterConfiguration.default : FormatterConfiguration :=
  { enabled := true, line_width := 80, indent_size := 2 }

/-- Modelled from the spec: the JavaScript-specific stylistic switches
(`JavascriptConfiguration` from `configuration/javascript.rs`, outside the
files under verification): a quote-character preference. -/
structure JavascriptConfiguration where
  quote_double : Bool
deriving DecidableEq

/-- Modelled from the spec: the serde default of the JavaScript
configuration. -/
def JavascriptConfiguration.default : JavascriptConfiguration :=
  { quote_double := true }

/-- Configuration contained inside the file `rome.json`: the root flag, the
formatter configuration and the JavaScript configuration. -/
structure Configuration where
  root : Bool
  formatter : FormatterConfiguration
  javascript : JavascriptConfiguration
deriving DecidableEq

/-- Default `Configuration` produced by the derived `Default` implementation
(serde defaults): each field takes its own default, and the Rust default of
`bool` is `false`. -/
def Configuration.default : Configuration :=
  { root := false,
    formatter := FormatterConfiguration.default,
    javascript := JavascriptConfiguration.default }

/-- Method `Configuration::is_formatter_disabled`: the negation of the
formatter configuration enabled flag. -/
def Configuration.is_formatter_disabled (self : Configuration) : Bool :=
  !self.formatter.enabled

/-- Series of errors that can be thrown while computing the configuration:
its only variant is `NotRoot`. -/
inductive ConfigurationError where
  | NotRoot
deriving DecidableEq

/-- Display implementation for `ConfigurationError`: the `NotRoot` arm
writes the fixed message about the root field. -/
def ConfigurationError.displayFmt : ConfigurationError → String
  | ConfigurationError.NotRoot =>
      "the main configuration file, rome.json, must have the field \x27root\x27 set to \x60true\x60"

/-- Debug implementation for `ConfigurationError`: each arm delegates to the
Display implementation. -/
def ConfigurationError.debugFmt (self : ConfigurationError) : String :=
  match self with
  | ConfigurationError.NotRoot => ConfigurationError.displayFmt self

/-- Counterexample for C6: the `ConfigurationError` taxonomy holds no value
besides `NotRoot`, and the one value it has reports the root-field
requirement, not an invalid width; so no invalid-width configuration error
value exists in the taxonomy. -/
theorem configuration_error_no_width_variant :
    (¬ ∃ e : ConfigurationError, e ≠ ConfigurationError.NotRoot)
      ∧ ConfigurationError.displayFmt ConfigurationError.NotRoot
          = "the main configuration file, rome.json, must have the field \x27root\x27 set to \x60true\x60" := by
  refine ⟨?_, rfl⟩
  rintro ⟨e, h⟩
  cases e
  exact h rfl

/-- Claim C6 amended: the `ConfigurationError` taxonomy contains exactly the
`NotRoot` variant, so an invalid width configuration is not reported through
a dedicated `ConfigurationError` variant. -/
theorem configuration_error_only_not_root :
    ∀ e : ConfigurationError, e = ConfigurationError.NotRoot := by
  intro e
  cases e
  rfl

/-- Claim C8: `is_formatter_disabled` returns true exactly when the
formatter enabled flag is false, and it reads no field other than that
flag (two configurations agreeing on the flag agree on the result). -/
theorem is_formatter_disabled_iff (c : Configuration) :
    (c.is_formatter_disabled = true ↔ c.formatter.enabled = false)
      ∧ ∀ c' : Configuration,
          c.formatter.enabled = c'.formatter.enabled →
          c.is_formatter_disabled = c'.is_formatter_disabled := by
  constructor
  · simp [Configuration.is_formatter_disabled]
  · intro c' h
    simp [Configuration.is_formatter_disabled, h]

/-- Witness for C8 at two concrete configurations differing only in fields
other than the enabled flag. -/
theorem is_formatter_disabled_iff_witness :
    Configuration.is_formatter_disabled Configuration.default
      = Configuration.is_formatter_disabled
          { root := true,
            formatter := FormatterConfiguration.default,
            javascript := JavascriptConfiguration.default } :=
  (is_formatter_disabled_iff Configuration.default).2
    { root := true,
      formatter := FormatterConfiguration.default,
      javascript := JavascriptConfiguration.default }
    rfl

/-- Claim C9: the default-constructed `Configuration` has `root` equal to
false, so a configuration that does not explicitly set `root` is not a
master configuration. -/
theorem default_configuration_root_false :
    Configuration.default.root = false := rfl

/-- Claim C10: for `ConfigurationError.NotRoot` the Debug formatting and the
Display formatting produce the same string, namely the fixed message about
the root field. -/
theorem configuration_error_debug_eq_display :
    ConfigurationError.debugFmt ConfigurationError.NotRoot
        = ConfigurationError.displayFmt ConfigurationError.NotRoot
      ∧ ConfigurationError.debugFmt ConfigurationError.NotRoot
          = "the main configuration file, rome.json, must have the field \x27root\x27 set to \x60true\x60" :=
  ⟨rfl, rfl⟩
